import Mathlib

/-!
Verification of the Graphite Flux signaling hub and the Blip P2P transfer
protocol, as a shallow embedding of the relevant source functions.

Server side (the Node signaling hub): connect-code generation and the
get-or-create retry loop, the connection registry, the RTC session table and
its message handlers, and the socket-close cleanup handler.

Client side (the Swift DataChannelManager): file chunking, chunk framing,
the receiver chunk store, and FILE_COMPLETE reassembly with SHA-256
verification.  SHA-256 itself is the standard FIPS 180-4 algorithm the code
obtains from CryptoKit; it is implemented here concretely so checksums on
small inputs evaluate inside proofs.

Bytes are modelled as `Nat` (values < 256); byte strings as `List Nat`;
JavaScript `Map` / Swift dictionaries as association lists or as functions
to `Option`; the random source and the database insert outcome are explicit
functional parameters.
-/

/-! ## SHA-256 (FIPS 180-4), byte-level, over `List Nat` -/

/-- Truncate to a 32-bit word. -/
def w32 (x : Nat) : Nat := x % 4294967296

/-- Rotate a 32-bit word right by `n` bits. -/
def rotr32 (n x : Nat) : Nat := w32 ((x >>> n) ||| (x <<< (32 - n)))

/-- Message-schedule sigma-0. -/
def smallSigma0 (x : Nat) : Nat := (rotr32 7 x) ^^^ (rotr32 18 x) ^^^ (x >>> 3)

/-- Message-schedule sigma-1. -/
def smallSigma1 (x : Nat) : Nat := (rotr32 17 x) ^^^ (rotr32 19 x) ^^^ (x >>> 10)

/-- Compression big-sigma-0. -/
def bigSigma0 (x : Nat) : Nat := (rotr32 2 x) ^^^ (rotr32 13 x) ^^^ (rotr32 22 x)

/-- Compression big-sigma-1. -/
def bigSigma1 (x : Nat) : Nat := (rotr32 6 x) ^^^ (rotr32 11 x) ^^^ (rotr32 25 x)

/-- The choice function `Ch`; 32-bit complement written as xor with all-ones. -/
def chFn (x y z : Nat) : Nat := (x &&& y) ^^^ ((x ^^^ 4294967295) &&& z)

/-- The majority function `Maj`. -/
def majFn (x y z : Nat) : Nat := (x &&& y) ^^^ (x &&& z) ^^^ (y &&& z)

/-- The 64 SHA-256 round constants. -/
def shaK : List Nat :=
  [1116352408, 1899447441, 3049323471, 3921009573, 961987163,
   1508970993, 2453635748, 2870763221, 3624381080, 310598401,
   607225278, 1426881987, 1925078388, 2162078206, 2614888103,
   3248222580, 3835390401, 4022224774, 264347078, 604807628,
   770255983, 1249150122, 1555081692, 1996064986, 2554220882,
   2821834349, 2952996808, 3210313671, 3336571891, 3584528711,
   113926993, 338241895, 666307205, 773529912, 1294757372,
   1396182291, 1695183700, 1986661051, 2177026350, 2456956037,
   2730485921, 2820302411, 3259730800, 3345764771, 3516065817,
   3600352804, 4094571909, 275423344, 430227734, 506948616,
   659060556, 883997877, 958139571, 1322822218, 1537002063,
   1747873779, 1955562222, 2024104815, 2227730452, 2361852424,
   2428436474, 2756734187, 3204031479, 3329325298]

/-- The initial SHA-256 hash state. -/
def shaH0 : List Nat :=
  [1779033703, 3144134277, 1013904242, 2773480762, 1359893119,
   2600822924, 528734635, 1541459225]

/-- A natural number as 8 big-endian bytes. -/
def be64bytes (n : Nat) : List Nat :=
  [n / 72057594037927936 % 256, n / 281474976710656 % 256, n / 1099511627776 % 256,
   n / 4294967296 % 256, n / 16777216 % 256, n / 65536 % 256, n / 256 % 256, n % 256]

/-- SHA-256 padding: append 0x80, zeros to 56 mod 64, then the bit length. -/
def padMessage (msg : List Nat) : List Nat :=
  msg ++ [128] ++ List.replicate ((64 - ((msg.length + 9) % 64)) % 64) 0
      ++ be64bytes (8 * msg.length)

/-- Group bytes into 32-bit big-endian words. -/
def bytesToWords : List Nat → List Nat
  | b0 :: b1 :: b2 :: b3 :: rest =>
      (b0 * 16777216 + b1 * 65536 + b2 * 256 + b3) :: bytesToWords rest
  | _ => []

/-- One extension step of the message schedule. -/
def scheduleWord (ws : List Nat) : Nat :=
  w32 (smallSigma1 (ws.getD (ws.length - 2) 0) + ws.getD (ws.length - 7) 0 +
       smallSigma0 (ws.getD (ws.length - 15) 0) + ws.getD (ws.length - 16) 0)

/-- Extend the 16-word schedule; `fuel` extension steps (48 for a block). -/
def extendSchedule : Nat → List Nat → List Nat
  | 0, ws => ws
  | fuel + 1, ws => extendSchedule fuel (ws ++ [scheduleWord ws])

/-- One compression round on the state `[a,b,c,d,e,f,g,h]`. -/
def shaRound (st : List Nat) (kw : Nat × Nat) : List Nat :=
  match st with
  | [a, b, c, d, e, f, g, h] =>
    let t1 := w32 (h + bigSigma1 e + chFn e f g + kw.1 + kw.2)
    let t2 := w32 (bigSigma0 a + majFn a b c)
    [w32 (t1 + t2), a, b, c, w32 (d + t1), e, f, g]
  | other => other

/-- Compress one 64-byte block into the running hash state. -/
def compressBlock (hs : List Nat) (block : List Nat) : List Nat :=
  let ws := extendSchedule 48 (bytesToWords block)
  let st := (shaK.zip ws).foldl shaRound hs
  (hs.zip st).map (fun p => w32 (p.1 + p.2))

/-- Split a padded message into 64-byte blocks; `fuel` bounds the recursion
and is instantiated with the list length, which more than suffices. -/
def toBlocks : Nat → List Nat → List (List Nat)
  | 0, _ => []
  | fuel + 1, bs => if bs.isEmpty then [] else bs.take 64 :: toBlocks fuel (bs.drop 64)

/-- A 32-bit word as 4 big-endian bytes. -/
def wordToBytes (n : Nat) : List Nat :=
  [n / 16777216 % 256, n / 65536 % 256, n / 256 % 256, n % 256]

/-- SHA-256 digest (32 bytes) of a byte string. -/
def sha256 (msg : List Nat) : List Nat :=
  let padded := padMessage msg
  ((toBlocks padded.length padded).foldl compressBlock shaH0).flatMap wordToBytes

/-- A hex digit character, lowercase. -/
def hexDigitChar (n : Nat) : Char := "0123456789abcdef".toList.getD n 'x'

/-- A byte as two lowercase hex characters, as Swift `String(format: "%02x", b)`
renders each digest byte. -/
def byteToHex (b : Nat) : List Char := [hexDigitChar (b / 16), hexDigitChar (b % 16)]

/-- Lowercase hex SHA-256 of a byte string: the checksum computation
`SHA256.hash(data:).compactMap { String(format: "%02x", $0) }.joined()`
in `sendFile` and `handleFileComplete` (DataChannelManager.swift). -/
def sha256hex (msg : List Nat) : String := String.mk ((sha256 msg).flatMap byteToHex)

/-! ## ASCII string/byte helpers and case folding -/

/-- Bytes of an ASCII string, as `String.data(using: .utf8)` produces for the
hex digests and ids the protocol puts on the wire. -/
def asciiEncode (s : String) : List Nat := s.toList.map Char.toNat

/-- Decode wire bytes back to a string (all protocol strings are ASCII). -/
def asciiDecode (bs : List Nat) : String :=
  String.mk (bs.map (fun b => Char.ofNat b))

/-- Lowercase an ASCII character. -/
def lowerChar (c : Char) : Char :=
  if 65 ≤ c.toNat ∧ c.toNat ≤ 90 then Char.ofNat (c.toNat + 32) else c

/-- Lowercase an ASCII string; used to express the case-insensitive
comparison the specification describes. -/
def lowerStr (s : String) : String := String.mk (s.toList.map lowerChar)

/-! ## Transfer protocol (DataChannelManager.swift)

The sender reads the whole file, computes `totalChunks` and the checksum,
then slices chunk `i` as `fileData.subdata(in: i*chunkSize ..< min((i+1)*chunkSize, count))`
(`sendNextChunks`).  The receiver stores chunks in a dictionary keyed by
index (`handleFileChunk`) and on FILE_COMPLETE concatenates indices
`0 ..< totalChunks` in order, failing at the first missing one
(`handleFileComplete`). -/

/-- `WebRTCConfig.chunkSize = 64 * 1024`. -/
def chunkSize : Nat := 64 * 1024

/-- Total chunk count `Int(ceil(Double(count) / Double(chunkSize)))` from
`sendFile`, as exact natural-number ceiling division. -/
def numChunks (len : Nat) : Nat := (len + chunkSize - 1) / chunkSize

/-- Chunk `i` of the file: bytes `[i*chunkSize, min((i+1)*chunkSize, count))`
as sliced in `sendNextChunks`. -/
def chunkData (data : List Nat) (i : Nat) : List Nat :=
  (data.drop (i * chunkSize)).take chunkSize

/-- All chunks the sender emits, in ascending index order. -/
def splitChunks (data : List Nat) : List (List Nat) :=
  (List.range (numChunks data.length)).map (chunkData data)

/-- A 32-bit index as 4 big-endian bytes (`UInt32(index).bigEndian` in
`sendChunk`; the conversion requires `index < 2^32`). -/
def be32encode (n : Nat) : List Nat :=
  [n / 16777216 % 256, n / 65536 % 256, n / 256 % 256, n % 256]

/-- Decode a 4-byte big-endian index (`load(as: UInt32.self).bigEndian`
in `handleFileChunk`). -/
def be32decode (bs : List Nat) : Nat :=
  match bs with
  | [a, b, c, d] => a * 16777216 + b * 65536 + c * 256 + d
  | _ => 0

/-- A FILE_CHUNK frame: `[type = 2] [u32 index BE] [payload]` (`sendChunk`). -/
def encodeChunkFrame (index : Nat) (payload : List Nat) : List Nat :=
  2 :: (be32encode index ++ payload)

/-- A FILE_COMPLETE frame: `[type = 3] [utf8 checksum]` (`sendCompleteMessage`). -/
def completeFrame (checksum : String) : List Nat :=
  3 :: asciiEncode checksum

/-- Dictionary assignment `receivingChunks[Int(index)] = chunkData`: the new
payload replaces whatever was stored for that index. -/
def storeChunk (chunks : Nat → Option (List Nat)) (index : Nat) (payload : List Nat) :
    Nat → Option (List Nat) :=
  fun j => if j = index then some payload else chunks j

/-- `handleFileChunk`: frames of at most 5 bytes are dropped (`guard
data.count > 5`); otherwise the index is bytes 1-4 big-endian and the
payload is everything from byte 5 on, stored into the chunk dictionary. -/
def handleFileChunk (chunks : Nat → Option (List Nat)) (frame : List Nat) :
    Nat → Option (List Nat) :=
  if frame.length > 5 then
    storeChunk chunks (be32decode ((frame.drop 1).take 4)) (frame.drop 5)
  else chunks

/-- The reassembly loop of `handleFileComplete`: walk indices `i, i+1, ...`
(`remaining` of them, called with `remaining = totalChunks`, `i = 0`),
appending each stored chunk to the accumulator; stop with the index of the
first missing chunk. -/
def completeLoop (chunks : Nat → Option (List Nat)) :
    Nat → Nat → List Nat → Except Nat (List Nat)
  | _, 0, acc => .ok acc
  | i, remaining + 1, acc =>
    match chunks i with
    | none => .error i
    | some c => completeLoop chunks (i + 1) remaining (acc ++ c)

/-- The expected checksum carried by a FILE_COMPLETE frame: the bytes after
the type byte decoded as a string, or `""` when the frame is only the type
byte (`handleFileComplete`, lines 348-351). -/
def extractChecksum (frame : List Nat) : String :=
  if frame.length > 1 then asciiDecode (frame.drop 1) else ""

/-- Outcome of processing FILE_COMPLETE: either a TRANSFER_FAILED with a
reason, or persist-and-TRANSFER_SUCCESS with the reassembled payload. -/
inductive CompleteOutcome where
  | failed (reason : String)
  | success (payload : List Nat)
  deriving DecidableEq

/-- `handleFileComplete` (DataChannelManager.swift, lines 344-387), given the
metadata's `totalChunks`, the chunk dictionary and the raw FILE_COMPLETE
frame: reassemble in index order (failing on the first missing index),
then fail with "Checksum mismatch" exactly when the expected checksum is
non-empty and differs — by exact string comparison — from the lowercase hex
SHA-256 of the reassembled bytes; otherwise succeed. -/
def handleFileComplete (totalChunks : Nat) (chunks : Nat → Option (List Nat))
    (frame : List Nat) : CompleteOutcome :=
  match completeLoop chunks 0 totalChunks [] with
  | .error k => .failed ("Missing chunk " ++ toString k)
  | .ok payload =>
    let expected := extractChecksum frame
    if expected ≠ "" ∧ sha256hex payload ≠ expected then .failed "Checksum mismatch"
    else .success payload

/-- Modelled from the spec: the receiver behaviour claim C3 describes —
identical reassembly, but the digest comparison is case-insensitive and
always performed.  Named for comparison against `handleFileComplete`. -/
def specHandleFileComplete (totalChunks : Nat) (chunks : Nat → Option (List Nat))
    (frame : List Nat) : CompleteOutcome :=
  match completeLoop chunks 0 totalChunks [] with
  | .error k => .failed ("Missing chunk " ++ toString k)
  | .ok payload =>
    if lowerStr (sha256hex payload) = lowerStr (extractChecksum frame) then .success payload
    else .failed "Checksum mismatch"

/-- The sender's declared metadata for a file (`sendFile`): size, total
chunk count, and lowercase hex SHA-256 checksum. -/
structure SenderMetadata where
  fileSize : Nat
  totalChunks : Nat
  checksum : String
  deriving DecidableEq

/-- The metadata `sendFile` computes from the file bytes. -/
def senderMetadata (data : List Nat) : SenderMetadata :=
  { fileSize := data.length, totalChunks := numChunks data.length,
    checksum := sha256hex data }

/-! ## Flux signaling hub (server, part of the Node backend)

`fluxClients` is a JS `Map` from user id to the client record (we keep the
user id and an abstract socket/connection id); `rtcSessions` maps session id
to `{initiatorId, responderId, state, createdAt}`.  Both are modelled as
association lists with JS `Map.set` replace-or-append semantics.  Messages
written to sockets and socket closes are collected as a list of effects. -/

/-- An RTC session row (`rtcSessions.set` in `handleFluxMessage`). -/
structure RTCSession where
  initiatorId : String
  responderId : String
  state : String
  createdAt : Nat
  deriving DecidableEq

/-- A message the hub writes to some peer's socket (the fields each handler
actually serializes). -/
inductive FluxMsg where
  | connected (userId : String)
  | friendOnline (friendId : String)
  | friendOffline (friendId : String)
  | errorMsg (message : String)
  | sessionRequestFwd (senderId senderName sessionId : String)
      (fileName : Option String) (fileSize : Option Nat) (fileType : Option String)
  | sessionAcceptFwd (sessionId senderId : String)
  | sessionReadyFwd (sessionId senderId : String)
  | sessionCloseFwd (sessionId : String)
  deriving DecidableEq

/-- An observable side effect of a hub handler: a socket write addressed by
user id, or closing the socket with the given connection id, close code and
reason. -/
inductive HubEffect where
  | sendTo (userId : String) (msg : FluxMsg)
  | closeSocket (connId : Nat) (code : Nat) (reason : String)
  deriving DecidableEq

/-- JS `Map.set` on an association list: replace the (single) binding for
the key in place, or append a new binding. -/
def mapSet {α : Type} : List (String × α) → String → α → List (String × α)
  | [], u, v => [(u, v)]
  | p :: rest, u, v => if p.1 = u then (u, v) :: rest else p :: mapSet rest u v

/-- The connection registry: user id to connection (socket) id. -/
abbrev Registry := List (String × Nat)

/-- The session table keyed by session id. -/
abbrev SessionTable := List (String × RTCSession)

/-- `generateConnectCode`'s alphabet, verbatim:
`"ABCDEFGHJKLMNPQRSTUVWXYZ23456789"` (32 characters). -/
def codeChars : String := "ABCDEFGHJKLMNPQRSTUVWXYZ23456789"

/-- `generateConnectCode`: six draws from the alphabet; `rand i` models the
value of `Math.floor(Math.random() * chars.length)` at iteration `i`
(always `< 32`, enforced here by `% 32`). -/
def generateConnectCode (rand : Nat → Nat) : String :=
  String.mk ((List.range 6).map (fun i => codeChars.toList.getD (rand i % 32) 'A'))

/-- Modelled from the spec: the claimed pattern `^[A-HJ-KM-NP-Z2-9]{6}$`
(A–Z and 2–9 with I, L, O, 1, 0 excluded), as a decidable check.  Named for
comparison with what `generateConnectCode` actually produces. -/
def matchesSpecCodePattern (s : String) : Bool :=
  s.length == 6 && s.toList.all (fun c => "ABCDEFGHJKMNPQRSTUVWXYZ23456789".toList.contains c)

/-- The generated codes' actual pattern: six characters from the
`codeChars` alphabet (which retains `L`). -/
def matchesFluxCodePattern (s : String) : Bool :=
  s.length == 6 && s.toList.all (fun c => codeChars.toList.contains c)

/-- The `while (attempts < 10)` body of `getOrCreateConnectCode`, as a
structural recursion on the remaining attempts (`fuel = 10 - attempts`
throughout; entered with `fuel = 10`, `attempts = 0`).  At each attempt a
fresh code is generated and inserted; `ok a` models the attempt-`a` insert
succeeding (no uniqueness collision).  The result pairs the returned code
with whether it was actually persisted — when the fuel runs out the code of
the final attempt is returned unpersisted, exactly as the source returns
`code` after the loop. -/
def connectCodeLoop (rand : Nat → Nat → Nat) (ok : Nat → Bool) :
    Nat → Nat → String → String × Bool
  | 0, _, code => (code, false)
  | fuel + 1, attempts, code =>
    let c := generateConnectCode (rand attempts)
    if ok attempts then (c, true) else connectCodeLoop rand ok fuel (attempts + 1) c

/-- `getOrCreateConnectCode`: return the existing persisted code if there is
one, otherwise run the retry loop. -/
def getOrCreateConnectCode (existing : Option String) (rand : Nat → Nat → Nat)
    (ok : Nat → Bool) : String × Bool :=
  match existing with
  | some c => (c, true)
  | none => connectCodeLoop rand ok 10 0 ""

/-- The post-authentication part of the `wss.on("connection")` handler:
store the client (`fluxClients.set`), send `connected`, then broadcast
`friend_online` to every registered client (`notifyFriendsOfStatus`, which
runs after the set and therefore includes the new client). -/
def registerConnection (clients : Registry) (u : String) (conn : Nat) :
    Registry × List HubEffect :=
  let clients2 := mapSet clients u conn
  (clients2,
   HubEffect.sendTo u (.connected u) ::
     clients2.map (fun p => HubEffect.sendTo p.1 (.friendOnline u)))

/-- The `ws.on("close")` handler (server lines 828-839): delete the user
from `fluxClients`, broadcast `friend_offline` to the remaining clients,
and delete every session whose initiator or responder is the user. -/
def handleSocketClose (clients : Registry) (sessions : SessionTable) (u : String) :
    Registry × SessionTable × List HubEffect :=
  let clients2 := clients.filter (fun p => p.1 ≠ u)
  let effects := clients2.map (fun p => HubEffect.sendTo p.1 (.friendOffline u))
  let sessions2 := sessions.filter
    (fun s => ¬(s.2.initiatorId = u ∨ s.2.responderId = u))
  (clients2, sessions2, effects)

/-- `case "rtc_session_request"`: if the target peer is not registered,
reply `error "Peer not connected"` and allocate nothing; otherwise store a
`pending` session and forward `{senderId, senderName, sessionId}` to the
peer — the request's file hint fields are not copied into the forwarded
message, hence `none`s. -/
def handleSessionRequest (clients : Registry) (sessions : SessionTable)
    (senderId senderName : String) (peerId sessionId : String)
    (fileName : Option String) (fileSize : Option Nat) (fileType : Option String)
    (now : Nat) : SessionTable × List HubEffect :=
  match List.lookup peerId clients with
  | none => (sessions, [HubEffect.sendTo senderId (.errorMsg "Peer not connected")])
  | some _ =>
    (mapSet sessions sessionId
       { initiatorId := senderId, responderId := peerId, state := "pending", createdAt := now },
     [HubEffect.sendTo peerId (.sessionRequestFwd senderId senderName sessionId none none none)])

/-- `case "rtc_session_accept"`: missing session replies
`error "Session not found"`; an existing session has its state set to
`"accepted"` unconditionally and the accept is forwarded to the initiator
when the initiator is registered. -/
def handleSessionAccept (clients : Registry) (sessions : SessionTable)
    (senderId sessionId : String) : SessionTable × List HubEffect :=
  match List.lookup sessionId sessions with
  | none => (sessions, [HubEffect.sendTo senderId (.errorMsg "Session not found")])
  | some s =>
    (sessions.map (fun p => if p.1 = sessionId then (p.1, { p.2 with state := "accepted" }) else p),
     if (List.lookup s.initiatorId clients).isSome then
       [HubEffect.sendTo s.initiatorId (.sessionAcceptFwd sessionId senderId)]
     else [])

/-- `case "rtc_session_ready"`: a missing session is silently ignored (no
reply at all); an existing session has its state set to `"connected"`
unconditionally and the ready is forwarded to the other peer when
registered. -/
def handleSessionReady (clients : Registry) (sessions : SessionTable)
    (senderId sessionId : String) : SessionTable × List HubEffect :=
  match List.lookup sessionId sessions with
  | none => (sessions, [])
  | some s =>
    let otherId := if s.initiatorId = senderId then s.responderId else s.initiatorId
    (sessions.map (fun p => if p.1 = sessionId then (p.1, { p.2 with state := "connected" }) else p),
     if (List.lookup otherId clients).isSome then
       [HubEffect.sendTo otherId (.sessionReadyFwd sessionId senderId)]
     else [])

/-- Whether an effect is an error reply. -/
def effectIsError : HubEffect → Bool
  | .sendTo _ (.errorMsg _) => true
  | _ => false

/-- Whether an effect forwards `rtc_session_close`. -/
def effectIsSessionClose : HubEffect → Bool
  | .sendTo _ (.sessionCloseFwd _) => true
  | _ => false

/-- Whether an effect is the `friend_offline` broadcast for `u`. -/
def effectIsFriendOffline (u : String) : HubEffect → Bool
  | .sendTo _ (.friendOffline v) => v == u
  | _ => false

/-- Whether an effect closes a socket. -/
def effectIsClose : HubEffect → Bool
  | .closeSocket _ _ _ => true
  | _ => false

/-- Whether a session references user `u` as either endpoint. -/
def sessionMentions (u : String) (s : RTCSession) : Bool :=
  s.initiatorId == u || s.responderId == u

/-! ## Helper lemmas -/

/-- Concatenating the first `n` chunks reproduces the first `n * chunkSize`
bytes. -/
theorem flatten_chunks (data : List Nat) (n : Nat) :
    ((List.range n).map (chunkData data)).flatten = data.take (n * chunkSize) := by
  induction n with
  | zero => simp
  | succ n ih =>
    rw [List.range_succ, List.map_append, List.flatten_append, ih]
    simp only [List.map_cons, List.map_nil, List.flatten_cons, List.flatten_nil,
      List.append_nil, chunkData, Nat.succ_mul]
    rw [List.take_add]

/-- The chunk count covers the whole file: `len ≤ numChunks len * chunkSize`. -/
theorem length_le_numChunks_mul (len : Nat) : len ≤ numChunks len * chunkSize := by
  unfold numChunks chunkSize
  omega

/-- The ceiling is tight: fewer chunks would not cover the file. -/
theorem numChunks_mul_lt (len : Nat) : numChunks len * chunkSize < len + chunkSize := by
  unfold numChunks chunkSize
  omega

/-- Reassembling the sender's chunks in index order gives back the file. -/
theorem splitChunks_flatten (data : List Nat) : (splitChunks data).flatten = data := by
  unfold splitChunks
  rw [flatten_chunks]
  exact List.take_of_length_le (length_le_numChunks_mul _)

/-- When every index in the window is present, the reassembly loop
concatenates the stored chunks in ascending order onto the accumulator. -/
theorem completeLoop_all_some (chunks : Nat → Option (List Nat)) (f : Nat → List Nat) :
    ∀ (remaining i : Nat) (acc : List Nat),
      (∀ j, i ≤ j → j < i + remaining → chunks j = some (f j)) →
      completeLoop chunks i remaining acc =
        .ok (acc ++ ((List.range remaining).map (fun t => f (i + t))).flatten) := by
  intro remaining
  induction remaining with
  | zero => intro i acc _; simp [completeLoop]
  | succ r ih =>
    intro i acc h
    have hi : chunks i = some (f i) := h i le_rfl (by omega)
    rw [completeLoop, hi]
    show completeLoop chunks (i + 1) r (acc ++ f i) = _
    rw [ih (i + 1) (acc ++ f i) (fun j hj1 hj2 => h j (by omega) (by omega))]
    congr 1
    rw [List.range_succ_eq_map]
    simp only [List.map_cons, List.flatten_cons, List.map_map, List.append_assoc,
      Nat.add_zero]
    congr 2
    congr 1
    apply List.map_congr_left
    intro t _
    simp only [Function.comp_apply]
    congr 1
    omega

/-- The sender's chunk list, read through `List.get?`, is total on indices
below the chunk count. -/
theorem splitChunks_get? (data : List Nat) (j : Nat) (hj : j < numChunks data.length) :
    (splitChunks data).get? j = some (chunkData data j) := by
  unfold splitChunks
  rw [List.get?_eq_getElem?, List.getElem?_map, List.getElem?_range hj]
  rfl

/-- Decoding an ASCII-encoded string is the identity. -/
theorem asciiDecode_asciiEncode (s : String) : asciiDecode (asciiEncode s) = s := by
  rcases s with ⟨data⟩
  show String.mk (List.map (fun b => Char.ofNat b) (List.map Char.toNat data)) = ⟨data⟩
  rw [List.map_map]
  have h1 : List.map ((fun b => Char.ofNat b) ∘ Char.toNat) data = List.map id data :=
    List.map_congr_left (fun c _ => Char.ofNat_toNat c)
  rw [h1, List.map_id]

/-- The checksum extracted from `completeFrame cs` is `cs` itself (for the
empty string the frame has no digest bytes and extraction yields `""`). -/
theorem extractChecksum_completeFrame (cs : String) :
    extractChecksum (completeFrame cs) = cs := by
  have hrt := asciiDecode_asciiEncode cs
  unfold extractChecksum completeFrame
  by_cases h : 0 < (asciiEncode cs).length
  · rw [if_pos (by simp only [List.length_cons]; omega)]
    simpa using hrt
  · have henc : asciiEncode cs = [] := List.length_eq_zero.mp (by omega)
    have hcs : cs = "" := by
      rcases cs with ⟨data⟩
      rcases data with _ | ⟨c, rest⟩
      · rfl
      · exact absurd henc (by simp [asciiEncode, String.toList])
    rw [if_neg (by simp [henc])]
    exact hcs.symm

/-! ## Claims -/

/-- C1 counterexample: the claim says generated codes match
`^[A-HJ-KM-NP-Z2-9]{6}$` (I, L, O, 1, 0 excluded), but the generator's
alphabet retains `L` (index 10): the random stream that always draws
index 10 produces `"LLLLLL"`, which the claimed pattern rejects. -/
theorem c1_counterexample :
    generateConnectCode (fun _ => 10) = "LLLLLL" ∧
    matchesSpecCodePattern (generateConnectCode (fun _ => 10)) = false := by
  decide

/-- C1 (amended): every code produced by `generateConnectCode` is six
characters drawn from the actual 32-character alphabet
`ABCDEFGHJKLMNPQRSTUVWXYZ23456789`, i.e. it matches `^[A-HJ-NP-Z2-9]{6}$`
(A–Z and 2–9 with I, O, 1, 0 excluded; `L` is included). -/
theorem c1_generated_code_alphabet (rand : Nat → Nat) :
    matchesFluxCodePattern (generateConnectCode rand) = true := by
  have hall : ∀ k : Fin 32, codeChars.toList.contains (codeChars.toList.getD k.val 'A') = true := by
    decide
  unfold matchesFluxCodePattern
  rw [Bool.and_eq_true]
  constructor
  · rfl
  · rw [List.all_eq_true]
    intro c hc
    have hc2 : c ∈ (List.range 6).map
        (fun i => codeChars.toList.getD (rand i % 32) 'A') := hc
    obtain ⟨i, _, hci⟩ := List.mem_map.mp hc2
    subst hci
    exact hall ⟨rand i % 32, Nat.mod_lt _ (by norm_num)⟩

/-- C2: splitting a file into `⌈size / chunkSize⌉` chunks as `sendNextChunks`
does and reassembling them in ascending index order as `handleFileComplete`
does returns the original bytes; the receiver's `completeLoop` over exactly
the sent chunks succeeds with the original file, the full FILE_COMPLETE
handling with the sender's declared checksum succeeds (so the SHA-256 of
the reassembled bytes equals the declared checksum), the reassembled length
equals the declared file size, the chunk count is the ceiling, and every
chunk is at most `chunkSize` bytes. -/
theorem c2_split_reassemble_roundtrip (data : List Nat) :
    (splitChunks data).flatten = data ∧
    completeLoop (fun j => (splitChunks data).get? j) 0 (senderMetadata data).totalChunks []
      = .ok data ∧
    handleFileComplete (senderMetadata data).totalChunks
      (fun j => (splitChunks data).get? j)
      (completeFrame (senderMetadata data).checksum) = .success data ∧
    data.length = (senderMetadata data).fileSize ∧
    (splitChunks data).length = (senderMetadata data).totalChunks ∧
    (splitChunks data).all (fun c => c.length ≤ chunkSize) = true ∧
    sha256hex data = (senderMetadata data).checksum := by
  have hloop : completeLoop (fun j => (splitChunks data).get? j) 0
      (senderMetadata data).totalChunks [] = .ok data := by
    show completeLoop (fun j => (splitChunks data).get? j) 0 (numChunks data.length) []
      = .ok data
    have h := completeLoop_all_some (fun j => (splitChunks data).get? j)
      (chunkData data) (numChunks data.length) 0 []
      (fun j _ hj => splitChunks_get? data j (by omega))
    rw [h]
    simp only [Nat.zero_add, List.nil_append]
    show Except.ok ((splitChunks data).flatten) = _
    rw [splitChunks_flatten]
  refine ⟨splitChunks_flatten data, hloop, ?_, rfl, by simp [splitChunks, senderMetadata], ?_, rfl⟩
  · unfold handleFileComplete
    rw [hloop, extractChecksum_completeFrame]
    show (if (senderMetadata data).checksum ≠ "" ∧ sha256hex data ≠ (senderMetadata data).checksum
          then CompleteOutcome.failed "Checksum mismatch" else CompleteOutcome.success data)
        = CompleteOutcome.success data
    rw [if_neg (fun hcontra => hcontra.2 rfl)]
  · rw [List.all_eq_true]
    intro c hc
    obtain ⟨i, _, hci⟩ := List.mem_map.mp hc
    subst hci
    simpa [chunkData] using List.length_take_le chunkSize (data.drop (i * chunkSize))

/-- C3 counterexample: the claim says the digest comparison is
case-insensitive.  For the one-chunk payload `"abc"` ([97, 98, 99]) and a
FILE_COMPLETE frame carrying the correct digest in UPPERCASE hex, the code
emits `TRANSFER_FAILED "Checksum mismatch"` (it compares the lowercase hex
it computes against the frame string exactly), while the behaviour the
claim describes (`specHandleFileComplete`) would emit TRANSFER_SUCCESS. -/
theorem c3_counterexample :
    handleFileComplete 1 (storeChunk (fun _ => none) 0 [97, 98, 99])
      (completeFrame "BA7816BF8F01CFEA414140DE5DAE2223B00361A396177A9CB410FF61F20015AD")
      = .failed "Checksum mismatch" ∧
    specHandleFileComplete 1 (storeChunk (fun _ => none) 0 [97, 98, 99])
      (completeFrame "BA7816BF8F01CFEA414140DE5DAE2223B00361A396177A9CB410FF61F20015AD")
      = .success [97, 98, 99] := by
  decide

/-- C3 (amended): on FILE_COMPLETE with all chunks present the receiver
concatenates them in index order and compares the lowercase hex SHA-256 of
the result with the frame's digest by EXACT string equality (skipping the
check entirely when the frame carries no digest): an exact match yields
TRANSFER_SUCCESS, and any non-empty expected digest that differs from the
computed string — even only by letter case — yields
`TRANSFER_FAILED "Checksum mismatch"`. -/
theorem c3_exact_checksum_comparison (total : Nat) (chunks : Nat → Option (List Nat))
    (frame : List Nat) (payload : List Nat)
    (h : completeLoop chunks 0 total [] = .ok payload) :
    (extractChecksum frame = sha256hex payload →
      handleFileComplete total chunks frame = .success payload) ∧
    (extractChecksum frame ≠ "" → sha256hex payload ≠ extractChecksum frame →
      handleFileComplete total chunks frame = .failed "Checksum mismatch") := by
  constructor
  · intro he
    unfold handleFileComplete
    rw [h]
    show (if extractChecksum frame ≠ "" ∧ sha256hex payload ≠ extractChecksum frame
          then CompleteOutcome.failed "Checksum mismatch"
          else CompleteOutcome.success payload) = CompleteOutcome.success payload
    rw [if_neg (fun hcontra => hcontra.2 he.symm)]
  · intro h1 h2
    unfold handleFileComplete
    rw [h]
    show (if extractChecksum frame ≠ "" ∧ sha256hex payload ≠ extractChecksum frame
          then CompleteOutcome.failed "Checksum mismatch"
          else CompleteOutcome.success payload) = CompleteOutcome.failed "Checksum mismatch"
    rw [if_pos ⟨h1, h2⟩]

/-- Witness for C3 (amended): a concrete one-chunk transfer where the exact
lowercase digest is accepted and a frame with the digest string `"X"` is
rejected with "Checksum mismatch". -/
theorem c3_exact_checksum_comparison_witness :
    handleFileComplete 1 (storeChunk (fun _ => none) 0 [97, 98, 99])
      (completeFrame (sha256hex [97, 98, 99])) = .success [97, 98, 99] ∧
    handleFileComplete 1 (storeChunk (fun _ => none) 0 [97, 98, 99])
      (completeFrame "X") = .failed "Checksum mismatch" := by
  have h := c3_exact_checksum_comparison 1 (storeChunk (fun _ => none) 0 [97, 98, 99])
  exact ⟨(h (completeFrame (sha256hex [97, 98, 99])) [97, 98, 99] rfl).1
           (extractChecksum_completeFrame _),
         (h (completeFrame "X") [97, 98, 99] rfl).2 (by decide) (by decide)⟩

/-- C10: when the FILE_COMPLETE frame is just the type byte (no digest
bytes, so the expected checksum decodes to `""`), the receiver skips
checksum verification entirely: whenever the reassembly loop finds all
chunks present it succeeds with the reassembled payload, whatever its
content. -/
theorem c10_empty_checksum_skips_verification (total : Nat)
    (chunks : Nat → Option (List Nat)) (payload : List Nat)
    (h : completeLoop chunks 0 total [] = .ok payload) :
    handleFileComplete total chunks [3] = .success payload := by
  unfold handleFileComplete
  rw [h]
  show (if extractChecksum [3] ≠ "" ∧ sha256hex payload ≠ extractChecksum [3]
        then CompleteOutcome.failed "Checksum mismatch"
        else CompleteOutcome.success payload) = CompleteOutcome.success payload
  rw [if_neg (fun hcontra => hcontra.1 (by decide))]

/-- Witness for C10: a one-chunk transfer whose payload is `[7]` — certainly
not matching any digest — succeeds when the FILE_COMPLETE frame carries no
digest bytes. -/
theorem c10_empty_checksum_skips_verification_witness :
    handleFileComplete 1 (storeChunk (fun _ => none) 0 [7]) [3] = .success [7] :=
  c10_empty_checksum_skips_verification 1 (storeChunk (fun _ => none) 0 [7]) [7] rfl

/-- Four-byte big-endian decode inverts encode below 2^32. -/
theorem be32_roundtrip (idx : Nat) (h : idx < 4294967296) :
    be32decode (be32encode idx) = idx := by
  show idx / 16777216 % 256 * 16777216 + idx / 65536 % 256 * 65536
      + idx / 256 % 256 * 256 + idx % 256 = idx
  omega

/-- Parsing a well-formed chunk frame stores its payload at its index:
`handleFileChunk` on `encodeChunkFrame` is `storeChunk` (the frame has more
than 5 bytes exactly when the payload is non-empty). -/
theorem handleFileChunk_encodeChunkFrame (m : Nat → Option (List Nat)) (idx : Nat)
    (p : List Nat) (hidx : idx < 4294967296) (hp : p ≠ []) :
    handleFileChunk m (encodeChunkFrame idx p) = storeChunk m idx p := by
  have hplen : 0 < p.length := List.length_pos.mpr hp
  have hlen : (encodeChunkFrame idx p).length > 5 := by
    simp only [encodeChunkFrame, be32encode, List.length_cons, List.length_append]
    omega
  have hdrop1 : ((encodeChunkFrame idx p).drop 1).take 4 = be32encode idx := rfl
  have hdrop5 : (encodeChunkFrame idx p).drop 5 = p := rfl
  unfold handleFileChunk
  rw [if_pos hlen, hdrop1, hdrop5, be32_roundtrip idx hidx]

/-- C4 counterexample: the claim says the first FILE_CHUNK for an index
wins.  Sending index 0 with payload `[1]` and then index 0 with payload
`[2]`, the stored payload is `[2]` — the dictionary assignment
`receivingChunks[Int(index)] = chunkData` lets the later duplicate replace
the earlier one. -/
theorem c4_counterexample :
    (handleFileChunk (handleFileChunk (fun _ => none) (encodeChunkFrame 0 [1]))
        (encodeChunkFrame 0 [2])) 0 = some [2] ∧
    (handleFileChunk (handleFileChunk (fun _ => none) (encodeChunkFrame 0 [1]))
        (encodeChunkFrame 0 [2])) 0 ≠ some [1] := by
  decide

/-- C4 (amended): when two FILE_CHUNK frames carry the same index during
one transfer, the payload stored for that index — and therefore used at
reassembly — is the one from the LAST such frame; earlier occurrences are
overwritten. -/
theorem c4_last_duplicate_wins (m : Nat → Option (List Nat)) (idx : Nat)
    (p q : List Nat) (hidx : idx < 4294967296) (hp : p ≠ []) (hq : q ≠ []) :
    (handleFileChunk (handleFileChunk m (encodeChunkFrame idx p))
        (encodeChunkFrame idx q)) idx = some q := by
  rw [handleFileChunk_encodeChunkFrame _ _ _ hidx hp,
      handleFileChunk_encodeChunkFrame _ _ _ hidx hq]
  simp [storeChunk]

/-- Witness for C4 (amended): index 5, payloads `[9]` then `[8, 8]`; the
store holds `[8, 8]`. -/
theorem c4_last_duplicate_wins_witness :
    (handleFileChunk (handleFileChunk (fun _ => none) (encodeChunkFrame 5 [9]))
        (encodeChunkFrame 5 [8, 8])) 5 = some [8, 8] :=
  c4_last_duplicate_wins (fun _ => none) 5 [9] [8, 8] (by decide) (by decide) (by decide)

/-- Looking up a key after `mapSet` of that key returns the new value. -/
theorem lookup_mapSet {α : Type} (l : List (String × α)) (u : String) (v : α) :
    List.lookup u (mapSet l u v) = some v := by
  induction l with
  | nil => simp [mapSet, List.lookup]
  | cons p rest ih =>
    by_cases hp : p.1 = u
    · simp [mapSet, hp, List.lookup]
    · have hne : (u == p.1) = false := by
        simp only [beq_eq_false_iff_ne]
        exact fun e => hp e.symm
      simp [mapSet, hp, List.lookup, hne, ih]

/-- `mapSet` keeps at most one binding per key if the input had at most one. -/
theorem countP_mapSet_le {α : Type} (l : List (String × α)) (u : String) (v : α)
    (h : l.countP (fun p => p.1 == u) ≤ 1) :
    (mapSet l u v).countP (fun p => p.1 == u) ≤ 1 := by
  induction l with
  | nil => simp [mapSet, List.countP_cons]
  | cons p rest ih =>
    by_cases hp : p.1 = u
    · rw [List.countP_cons] at h
      simp only [hp, beq_self_eq_true, if_pos] at h
      simp only [mapSet, hp, if_pos]
      rw [List.countP_cons]
      simp only [beq_self_eq_true, if_pos]
      omega
    · have hne : (p.1 == u) = false := by simp only [beq_eq_false_iff_ne]; exact hp
      simp only [List.countP_cons, hne, Bool.false_eq_true, if_false, Nat.add_zero] at h
      simp only [mapSet, hp, ite_false, if_neg, not_false_iff]
      rw [List.countP_cons, hne]
      simp only [Bool.false_eq_true, if_false, Nat.add_zero]
      exact ih h

/-- Looking up the session id after the in-place state update of
`rtc_session_accept` / `rtc_session_ready` returns the updated record. -/
theorem lookup_map_update (sessions : SessionTable) (sid : String) (f : RTCSession → RTCSession) :
    List.lookup sid (sessions.map (fun p => if p.1 = sid then (p.1, f p.2) else p))
      = (List.lookup sid sessions).map f := by
  induction sessions with
  | nil => simp
  | cons p rest ih =>
    obtain ⟨k, v⟩ := p
    by_cases hp : k = sid
    · subst hp
      simp [List.lookup_cons]
    · have hbeq : (sid == k) = false := by
        simp only [beq_eq_false_iff_ne]
        exact fun e => hp e.symm
      simp [List.lookup_cons, hp, hbeq, ih]

/-- C5 counterexample: with clients `A` (socket 1) and `B` (socket 2) and a
connected session `S1` between them, `A`'s socket close deletes `S1` and
broadcasts only `friend_offline` — no `rtc_session_close` is sent to the
surviving, still-connected peer `B`, contrary to the claim. -/
theorem c5_counterexample :
    handleSocketClose [("A", 1), ("B", 2)]
        [("S1", ⟨"A", "B", "connected", 0⟩)] "A"
      = ([("B", 2)], [], [HubEffect.sendTo "B" (.friendOffline "A")]) ∧
    ((handleSocketClose [("A", 1), ("B", 2)]
        [("S1", ⟨"A", "B", "connected", 0⟩)] "A").2.2.any effectIsSessionClose) = false := by
  decide

/-- C5 (amended): on socket close the hub removes the peer from the
registry and deletes every session in which it is initiator or responder,
but it does NOT notify the surviving peer: the only messages sent are the
`friend_offline` presence broadcasts to the remaining clients, and no
`rtc_session_close` is emitted. -/
theorem c5_close_cleanup (clients : Registry) (sessions : SessionTable) (u : String) :
    ((handleSocketClose clients sessions u).1.all (fun p => p.1 != u)) = true ∧
    ((handleSocketClose clients sessions u).2.1.all
        (fun s => !(sessionMentions u s.2))) = true ∧
    ((handleSocketClose clients sessions u).2.2.all (effectIsFriendOffline u)) = true ∧
    ((handleSocketClose clients sessions u).2.2.any effectIsSessionClose) = false := by
  refine ⟨?_, ?_, ?_, ?_⟩
  · rw [List.all_eq_true]
    intro p hp
    have h2 := of_decide_eq_true (List.mem_filter.mp hp).2
    exact bne_iff_ne.mpr h2
  · rw [List.all_eq_true]
    intro s hs
    have := (List.mem_filter.mp hs).2
    simp only [decide_not, Bool.not_eq_true', decide_eq_false_iff_not] at this
    simp only [sessionMentions, Bool.not_eq_true', Bool.or_eq_false_iff,
      beq_eq_false_iff_ne]
    exact ⟨fun e => this (Or.inl e), fun e => this (Or.inr e)⟩
  · rw [List.all_eq_true]
    intro e he
    obtain ⟨p, _, hpe⟩ := List.mem_map.mp he
    subst hpe
    simp [effectIsFriendOffline]
  · rw [List.any_eq_false]
    intro e he
    obtain ⟨p, _, hpe⟩ := List.mem_map.mp he
    subst hpe
    simp [effectIsSessionClose]

/-- C6 counterexample: the claim says a transition that does not match the
current state (e.g. `rtc_session_ready` on a session still `pending`) leaves
the state unchanged and replies with an error.  On a `pending` session,
`rtc_session_ready` from the initiator instead sets the state to
`"connected"` and forwards the ready — the table changes and no error is
sent. -/
theorem c6_counterexample :
    handleSessionReady [("A", 1), ("B", 2)] [("S1", ⟨"A", "B", "pending", 0⟩)] "A" "S1"
      = ([("S1", ⟨"A", "B", "connected", 0⟩)],
         [HubEffect.sendTo "B" (.sessionReadyFwd "S1" "A")]) ∧
    (handleSessionReady [("A", 1), ("B", 2)] [("S1", ⟨"A", "B", "pending", 0⟩)] "A" "S1").1
      ≠ [("S1", ⟨"A", "B", "pending", 0⟩)] ∧
    ((handleSessionReady [("A", 1), ("B", 2)] [("S1", ⟨"A", "B", "pending", 0⟩)]
        "A" "S1").2.any effectIsError) = false := by
  decide

/-- C6 (amended): the hub validates only session EXISTENCE, never the
current state: `rtc_session_accept` on a missing session replies
`error "Session not found"` and changes nothing, while on an existing
session — whatever its state — it sets the state to `"accepted"` and sends
no error; `rtc_session_ready` on a missing session is silently ignored
(no reply at all), and on an existing session — whatever its state — it
sets the state to `"connected"` and sends no error. -/
theorem c6_existence_only_no_state_validation :
    (∀ (clients : Registry) (sessions : SessionTable) (senderId sessionId : String),
       List.lookup sessionId sessions = none →
       handleSessionAccept clients sessions senderId sessionId
         = (sessions, [HubEffect.sendTo senderId (.errorMsg "Session not found")])) ∧
    (∀ (clients : Registry) (sessions : SessionTable) (senderId sessionId : String)
       (s : RTCSession), List.lookup sessionId sessions = some s →
       List.lookup sessionId (handleSessionAccept clients sessions senderId sessionId).1
           = some { s with state := "accepted" } ∧
       ((handleSessionAccept clients sessions senderId sessionId).2.any effectIsError)
           = false) ∧
    (∀ (clients : Registry) (sessions : SessionTable) (senderId sessionId : String),
       List.lookup sessionId sessions = none →
       handleSessionReady clients sessions senderId sessionId = (sessions, [])) ∧
    (∀ (clients : Registry) (sessions : SessionTable) (senderId sessionId : String)
       (s : RTCSession), List.lookup sessionId sessions = some s →
       List.lookup sessionId (handleSessionReady clients sessions senderId sessionId).1
           = some { s with state := "connected" } ∧
       ((handleSessionReady clients sessions senderId sessionId).2.any effectIsError)
           = false) := by
  refine ⟨?_, ?_, ?_, ?_⟩
  · intro clients sessions senderId sessionId h
    simp [handleSessionAccept, h]
  · intro clients sessions senderId sessionId s h
    constructor
    · simp only [handleSessionAccept, h]
      rw [lookup_map_update sessions sessionId (fun x => { x with state := "accepted" }), h]
      rfl
    · simp only [handleSessionAccept, h]
      split
      · rfl
      · rfl
  · intro clients sessions senderId sessionId h
    simp [handleSessionReady, h]
  · intro clients sessions senderId sessionId s h
    constructor
    · simp only [handleSessionReady, h]
      rw [lookup_map_update sessions sessionId (fun x => { x with state := "connected" }), h]
      rfl
    · simp only [handleSessionReady, h]
      split <;> split <;> rfl

/-- Witness for C6 (amended): the four cases at concrete inputs — accept on
a missing session errors; accept on a `pending` session stores `accepted`
with no error; ready on a missing session does nothing; ready on an
`accepted` session stores `connected` with no error. -/
theorem c6_existence_only_no_state_validation_witness :
    handleSessionAccept [] [] "A" "S1"
      = ([], [HubEffect.sendTo "A" (.errorMsg "Session not found")]) ∧
    (List.lookup "S1"
        (handleSessionAccept [("A", 1)] [("S1", ⟨"A", "B", "pending", 0⟩)] "B" "S1").1
      = some ⟨"A", "B", "accepted", 0⟩ ∧
     ((handleSessionAccept [("A", 1)] [("S1", ⟨"A", "B", "pending", 0⟩)]
        "B" "S1").2.any effectIsError) = false) ∧
    handleSessionReady [] [] "A" "S1" = ([], []) ∧
    (List.lookup "S1"
        (handleSessionReady [("A", 1), ("B", 2)] [("S1", ⟨"A", "B", "accepted", 0⟩)]
          "A" "S1").1
      = some ⟨"A", "B", "connected", 0⟩ ∧
     ((handleSessionReady [("A", 1), ("B", 2)] [("S1", ⟨"A", "B", "accepted", 0⟩)]
        "A" "S1").2.any effectIsError) = false) := by
  obtain ⟨h1, h2, h3, h4⟩ := c6_existence_only_no_state_validation
  exact ⟨h1 [] [] "A" "S1" rfl,
         h2 [("A", 1)] [("S1", ⟨"A", "B", "pending", 0⟩)] "B" "S1" _ rfl,
         h3 [] [] "A" "S1" rfl,
         h4 [("A", 1), ("B", 2)] [("S1", ⟨"A", "B", "accepted", 0⟩)] "A" "S1" _ rfl⟩

/-- C7 counterexample: with every insert colliding, `getOrCreateConnectCode`
does not fail with a `CodeExhaustion` error — no such error exists in the
code — but returns the 10th generated candidate even though it was never
persisted (the second component records that no insert succeeded). -/
theorem c7_counterexample :
    getOrCreateConnectCode none (fun _ _ => 0) (fun _ => false) = ("AAAAAA", false) ∧
    (getOrCreateConnectCode none (fun _ _ => 0) (fun _ => false)).2 = false := by
  decide

/-- The retry loop under total failure: with `fuel` attempts left (entered
at attempt index `attempts`, `attempts + fuel = 10`) and every attempt
colliding, the loop returns the candidate of the final attempt (index 9),
unpersisted. -/
theorem connectCodeLoop_all_fail (rand : Nat → Nat → Nat) (ok : Nat → Bool) :
    ∀ (fuel attempts : Nat) (code : String), 0 < fuel → attempts + fuel = 10 →
      (∀ a, a < 10 → ok a = false) →
      connectCodeLoop rand ok fuel attempts code = (generateConnectCode (rand 9), false) := by
  intro fuel
  induction fuel with
  | zero =>
    intro attempts code h0 _ _
    omega
  | succ f ih =>
    intro attempts code h0 h10 hok
    have hfalse : ok attempts = false := hok attempts (by omega)
    show (if ok attempts = true then (generateConnectCode (rand attempts), true)
          else connectCodeLoop rand ok f (attempts + 1) (generateConnectCode (rand attempts)))
        = (generateConnectCode (rand 9), false)
    rw [hfalse, if_neg Bool.false_ne_true]
    cases f with
    | zero =>
      have ha : attempts = 9 := by omega
      subst ha
      rfl
    | succ g =>
      exact ih (attempts + 1) _ (by omega) (by omega) hok

/-- C7 (amended): for a user with no existing code the loop retries on
collisions for at most 10 attempts, and when all 10 attempts collide it
does NOT fail with a `CodeExhaustion` error: it returns the candidate
generated at the last attempt (index 9) even though it was never
persisted. -/
theorem c7_returns_unpersisted_code (rand : Nat → Nat → Nat) (ok : Nat → Bool)
    (h : ∀ a, a < 10 → ok a = false) :
    getOrCreateConnectCode none rand ok = (generateConnectCode (rand 9), false) :=
  connectCodeLoop_all_fail rand ok 10 0 "" (by omega) (by omega) h

/-- Witness for C7 (amended): the always-collide, always-draw-1 run returns
`("BBBBBB", false)`. -/
theorem c7_returns_unpersisted_code_witness :
    getOrCreateConnectCode none (fun _ _ => 1) (fun _ => false) = ("BBBBBB", false) := by
  rw [c7_returns_unpersisted_code (fun _ _ => 1) (fun _ => false) (fun a _ => rfl)]
  rfl

/-- C8 counterexample: a second authenticated socket (connection 2) from a
user that already has a live registered connection (connection 1) replaces
the registry entry without any `closeSocket` effect — the prior socket is
not closed with a "superseded" status (no such close exists in the code). -/
theorem c8_counterexample :
    (registerConnection [("A", 1)] "A" 2).1 = [("A", 2)] ∧
    ((registerConnection [("A", 1)] "A" 2).2.any effectIsClose) = false := by
  decide

/-- C8 (amended): on a new authenticated socket the hub overwrites the
registry entry for the user — afterwards the registry maps the user to the
new connection, and it still has at most one entry for the user if it had
at most one before — but it emits no socket close at all, so the
superseded socket stays open until it closes on its own. -/
theorem c8_no_supersede_close (clients : Registry) (u : String) (conn : Nat) :
    ((registerConnection clients u conn).2.any effectIsClose) = false ∧
    List.lookup u (registerConnection clients u conn).1 = some conn ∧
    (clients.countP (fun p => p.1 == u) ≤ 1 →
      ((registerConnection clients u conn).1.countP (fun p => p.1 == u)) ≤ 1) := by
  refine ⟨?_, lookup_mapSet clients u conn, fun h => countP_mapSet_le clients u conn h⟩
  show (HubEffect.sendTo u (.connected u) ::
      (mapSet clients u conn).map (fun p => HubEffect.sendTo p.1 (.friendOnline u))).any
        effectIsClose = false
  rw [List.any_cons]
  simp only [effectIsClose, Bool.false_or]
  rw [List.any_eq_false]
  intro e he
  obtain ⟨p, _, hpe⟩ := List.mem_map.mp he
  subst hpe
  simp [effectIsClose]

/-- Witness for C8 (amended): registering connection 3 for `A` over a
registry holding `A` at connection 1 and `B` at connection 2. -/
theorem c8_no_supersede_close_witness :
    ((registerConnection [("A", 1), ("B", 2)] "A" 3).2.any effectIsClose) = false ∧
    List.lookup "A" (registerConnection [("A", 1), ("B", 2)] "A" 3).1 = some 3 ∧
    ((registerConnection [("A", 1), ("B", 2)] "A" 3).1.countP
        (fun p => p.1 == "A")) ≤ 1 := by
  have h := c8_no_supersede_close [("A", 1), ("B", 2)] "A" 3
  exact ⟨h.1, h.2.1, h.2.2 (by decide)⟩

/-- C9 counterexample: the claim says the forward to the responder carries
the request's optional file hint.  A request from `A` targeting online
peer `B` with hint `("r.bin", 131072, "bin")` is forwarded with NO hint
fields — the forwarded message differs from the hint-carrying one the
claim describes. -/
theorem c9_counterexample :
    handleSessionRequest [("B", 2)] [] "A" "alice" "B" "S1"
        (some "r.bin") (some 131072) (some "bin") 0
      = ([("S1", ⟨"A", "B", "pending", 0⟩)],
         [HubEffect.sendTo "B" (.sessionRequestFwd "A" "alice" "S1" none none none)]) ∧
    FluxMsg.sessionRequestFwd "A" "alice" "S1" none none none
      ≠ .sessionRequestFwd "A" "alice" "S1" (some "r.bin") (some 131072) (some "bin") := by
  decide

/-- C9 (amended): on `rtc_session_request`, if the target peer is not
registered the hub replies `error "Peer not connected"` to the initiator
and allocates no session; otherwise it stores a session in state
`"pending"` for the pair and forwards the request to the responder carrying
`senderId`, `senderName` and `sessionId` only — the file hint from the
request is dropped (the forwarded message has no hint fields). -/
theorem c9_request_allocation_and_forward :
    (∀ (clients : Registry) (sessions : SessionTable)
       (senderId senderName peerId sessionId : String)
       (fn : Option String) (fs : Option Nat) (ft : Option String) (now : Nat),
       List.lookup peerId clients = none →
       handleSessionRequest clients sessions senderId senderName peerId sessionId fn fs ft now
         = (sessions, [HubEffect.sendTo senderId (.errorMsg "Peer not connected")])) ∧
    (∀ (clients : Registry) (sessions : SessionTable)
       (senderId senderName peerId sessionId : String)
       (fn : Option String) (fs : Option Nat) (ft : Option String) (now conn : Nat),
       List.lookup peerId clients = some conn →
       List.lookup sessionId
           (handleSessionRequest clients sessions senderId senderName peerId
             sessionId fn fs ft now).1
         = some ⟨senderId, peerId, "pending", now⟩ ∧
       (handleSessionRequest clients sessions senderId senderName peerId
           sessionId fn fs ft now).2
         = [HubEffect.sendTo peerId
             (.sessionRequestFwd senderId senderName sessionId none none none)]) := by
  constructor
  · intro clients sessions senderId senderName peerId sessionId fn fs ft now h
    simp [handleSessionRequest, h]
  · intro clients sessions senderId senderName peerId sessionId fn fs ft now conn h
    constructor
    · simp only [handleSessionRequest, h]
      exact lookup_mapSet sessions sessionId _
    · simp [handleSessionRequest, h]

/-- Witness for C9 (amended): the offline branch for a target not in the
registry, and the online branch for the counterexample's concrete request. -/
theorem c9_request_allocation_and_forward_witness :
    handleSessionRequest [] [] "A" "alice" "B" "S1" none none none 0
      = ([], [HubEffect.sendTo "A" (.errorMsg "Peer not connected")]) ∧
    (List.lookup "S1"
        (handleSessionRequest [("B", 2)] [] "A" "alice" "B" "S1"
          (some "r.bin") (some 131072) (some "bin") 0).1
      = some ⟨"A", "B", "pending", 0⟩ ∧
     (handleSessionRequest [("B", 2)] [] "A" "alice" "B" "S1"
         (some "r.bin") (some 131072) (some "bin") 0).2
      = [HubEffect.sendTo "B" (.sessionRequestFwd "A" "alice" "S1" none none none)]) := by
  obtain ⟨h1, h2⟩ := c9_request_allocation_and_forward
  exact ⟨h1 [] [] "A" "alice" "B" "S1" none none none 0 rfl,
         h2 [("B", 2)] [] "A" "alice" "B" "S1"
           (some "r.bin") (some 131072) (some "bin") 0 2 rfl⟩
